import Mathlib

/-!
Verification of the session-scoped conversation engine of the
chatbot-backend repository: session store (`domain/session_manager.py`),
greeting/name detection (`domain/prompts.py`), turn processing and summary
generation (`domain/chatbot.py`), and the summary endpoint
(`services/main.py`).

The per-session memory is langchain's `ConversationBufferWindowMemory`
(`k = 4`), a third-party dependency.  Its relevant behaviour is embedded
here from the library: `save_context` appends the (human, ai) message pair
to `chat_memory.messages` without pruning, and the window of the last
`k * 2` messages is applied only when the buffer is read
(`buffer_as_messages`).  Likewise `ConversationalRetrievalChain` is a
legacy langchain `Chain`, whose `astream` is the default `Runnable.astream`:
it awaits `ainvoke` (which runs retrieval + generation and saves the turn
to memory) and then yields the complete result as a single chunk; on an
exception nothing is yielded and nothing is saved.
-/

/-- Python `str` whitespace for `split()` and `strip()`:
space, tab, newline, carriage return, vertical tab, form feed. -/
def pyIsSpace (c : Char) : Bool :=
  c = ' ' || c = '\t' || c = '\n' || c = '\r' || c = '\x0b' || c = '\x0c'

/-- Helper for `pySplit`: walks the character list, accumulating the current
word (reversed) and emitting it when whitespace or the end is reached. -/
def splitWsAux : List Char → List Char → List String
  | [], acc => if acc.isEmpty then [] else [String.mk acc.reverse]
  | c :: cs, acc =>
      if pyIsSpace c then
        if acc.isEmpty then splitWsAux cs []
        else String.mk acc.reverse :: splitWsAux cs []
      else splitWsAux cs (c :: acc)

/-- Python `str.split()` with no separator: split on runs of whitespace,
discarding empty words (so leading/trailing whitespace yields nothing). -/
def pySplit (s : String) : List String := splitWsAux s.toList []

/-- Python `str.lower()` (ASCII fragment, which is all the keyword matching
in this codebase needs). -/
def pyLower (s : String) : String := String.mk (s.toList.map Char.toLower)

/-- Python `str.capitalize()`: first character upper-cased, all remaining
characters lower-cased (ASCII fragment). -/
def pyCapitalize (s : String) : String :=
  match s.toList with
  | [] => ""
  | c :: rest => String.mk (c.toUpper :: rest.map Char.toLower)

/-- Python `str.strip()`: remove leading and trailing whitespace. -/
def pyStrip (s : String) : String :=
  String.mk (((s.toList.dropWhile pyIsSpace).reverse.dropWhile pyIsSpace).reverse)

/-- The self-reference keyword list `palabras_clave` of
`detect_name_from_input` (`domain/prompts.py`). -/
def palabras_clave : List String := ["soy", "llamo", "es", "nombre"]

/-- The scanning loop of `detect_name_from_input`: on the token list, if the
head token lower-cases to a keyword and a following token exists, return that
following token capitalized; otherwise continue with the next token. -/
def detectGo : List String → Option String
  | palabra :: next :: rest =>
      if pyLower palabra ∈ palabras_clave then some (pyCapitalize next)
      else detectGo (next :: rest)
  | _ => none

/-- `detect_name_from_input` (`domain/prompts.py`): split the input on
whitespace and scan for a keyword followed by a further token. -/
def detect_name_from_input (user_input : String) : Option String :=
  detectGo (pySplit user_input)

/-- The `GREETING_MESSAGES` dictionary of `domain/prompts.py` (the brace
placeholder of the `welcome` entry is literal text there, never rendered by
the engine, which builds the named greeting with an f-string instead). -/
def GREETING_MESSAGES : List (String × String) :=
  [("welcome", "¡Hola \x7bnombre\x7d! ¿En qué puedo ayudarte hoy?"),
   ("welcome_generic", "¡Hola! ¿En qué puedo ayudarte hoy?"),
   ("ask_name", "¡Hola! Antes de comenzar, ¿cuál es tu nombre?")]

/-- Python `dict.get(key, default)` on a small literal dictionary. -/
def dictGet (d : List (String × String)) (key dflt : String) : String :=
  match d.find? (fun kv => kv.1 = key) with
  | some kv => kv.2
  | none => dflt

/-- Message role, langchain's `msg.type`: `"human"` for user messages,
`"ai"` for assistant messages. -/
inductive Role where
  | human
  | ai
deriving DecidableEq, Repr

/-- A message held in `chat_memory.messages`. -/
structure Msg where
  type : Role
  content : String
deriving DecidableEq, Repr

/-- A formatted history entry as produced by `SessionManager.get_history`:
a `{"role": ..., "content": ...}` dictionary. -/
structure RoleMsg where
  role : String
  content : String
deriving DecidableEq, Repr

/-- Per-session state stored by `SessionManager._get_or_create_session`:
the conversation memory (its full `chat_memory.messages` list), the captured
user name and the greeted flag. -/
structure Session where
  messages : List Msg
  name : Option String
  greeted : Bool
deriving DecidableEq, Repr

/-- The fresh session value built by `_get_or_create_session` for an unknown
id: empty memory, no name, not greeted. -/
def defaultSession : Session :=
  { messages := [], name := none, greeted := false }

/-- The `SessionManager.sessions` dictionary, as an association list from
session id to session state (first binding wins; the operations below keep
keys unique). -/
abbrev Store := List (String × Session)

/-- Dictionary lookup `self.sessions[session_id]` / membership test. -/
def findSession : Store → String → Option Session
  | [], _ => none
  | (k, v) :: rest, sid => if k = sid then some v else findSession rest sid

/-- Dictionary write `self.sessions[session_id] = s`: replaces the existing
binding in place, or appends a new one. -/
def setSession : Store → String → Session → Store
  | [], sid, s => [(sid, s)]
  | (k, v) :: rest, sid, s =>
      if k = sid then (sid, s) :: rest else (k, v) :: setSession rest sid s

/-- Dictionary removal `self.sessions.pop(session_id, None)`. -/
def eraseSession : Store → String → Store
  | [], _ => []
  | (k, v) :: rest, sid =>
      if k = sid then eraseSession rest sid else (k, v) :: eraseSession rest sid

/-- `SessionManager.get_or_create_session_id`: Python
`session_id if session_id else str(uuid.uuid4())` — the provided id is kept
only when it is truthy, i.e. present and non-empty; the freshly generated
uuid is a parameter of the model. -/
def get_or_create_session_id (session_id : Option String) (freshId : String) :
    String :=
  match session_id with
  | some s => if s = "" then freshId else s
  | none => freshId

/-- `SessionManager._get_or_create_session`: return the stored session, or
register and return a fresh default one. -/
def get_or_create_session (σ : Store) (sid : String) : Session × Store :=
  match findSession σ sid with
  | some s => (s, σ)
  | none => (defaultSession, setSession σ sid defaultSession)

/-- `SessionManager.get_or_create_memory`: the session's conversation memory
(modelled by its message list). -/
def get_or_create_memory (σ : Store) (sid : String) : List Msg × Store :=
  let p := get_or_create_session σ sid
  (p.1.messages, p.2)

/-- `SessionManager.clear_session`. -/
def clear_session (σ : Store) (sid : String) : Store := eraseSession σ sid

/-- `SessionManager.save_name`. -/
def save_name (σ : Store) (sid : String) (name : String) : Store :=
  let p := get_or_create_session σ sid
  setSession p.2 sid { p.1 with name := some name }

/-- `SessionManager.get_name`: reads the store, never writes it. -/
def get_name (σ : Store) (sid : String) : Option String :=
  match findSession σ sid with
  | some s => s.name
  | none => none

/-- `SessionManager.has_name`: reads the store, never writes it. -/
def has_name (σ : Store) (sid : String) : Bool :=
  match findSession σ sid with
  | some s => s.name.isSome
  | none => false

/-- `SessionManager.has_greeted`: reads the store, never writes it. -/
def has_greeted (σ : Store) (sid : String) : Bool :=
  match findSession σ sid with
  | some s => s.greeted
  | none => false

/-- `SessionManager.mark_as_greeted`. -/
def mark_as_greeted (σ : Store) (sid : String) : Store :=
  let p := get_or_create_session σ sid
  setSession p.2 sid { p.1 with greeted := true }

/-- `SessionManager.get_history`: `None` for an unknown session, else the
full `chat_memory.messages` list formatted as role/content dictionaries
(`human` ↦ `user`, anything else ↦ `assistant`; every message has a
`content` attribute, so the `hasattr` filter keeps them all). -/
def get_history (σ : Store) (sid : String) : Option (List RoleMsg) :=
  match findSession σ sid with
  | none => none
  | some s =>
      some (s.messages.map (fun m =>
        { role := if m.type = Role.human then "user" else "assistant",
          content := m.content }))

/-- The window size `k = 4` passed to `ConversationBufferWindowMemory` in
`SessionManager._get_or_create_session`. -/
def memoryWindowK : Nat := 4

/-- Embedded from the langchain library (a dependency, not repository code):
`ConversationBufferWindowMemory.buffer_as_messages` returns
`chat_memory.messages[-k * 2:]` when `k > 0` — the last `2 * k` stored
messages; the stored list itself is never pruned. -/
def windowMessages (msgs : List Msg) : List Msg :=
  if 0 < memoryWindowK then msgs.drop (msgs.length - 2 * memoryWindowK) else []

/-- Embedded from the langchain library: `BaseChatMemory.save_context`
appends the human question and the ai answer to `chat_memory.messages`.
The memory object is the one stored in the session, so the append lands in
the store (the engine only saves for sessions that exist). -/
def save_context (σ : Store) (sid : String) (question answer : String) :
    Store :=
  match findSession σ sid with
  | some s =>
      setSession σ sid
        { s with
          messages :=
            s.messages ++ [⟨Role.human, question⟩, ⟨Role.ai, answer⟩] }
  | none => σ

/-- The fixed apology emitted by `ChatbotService.stream_response` when any
exception escapes the turn body. -/
def ERROR_MSG : String :=
  "Lo siento, ocurrió un error al procesar tu mensaje. Por favor, inténtalo de nuevo."

/-- The result of one call to `ChatbotService.stream_response`: the fragments
yielded to the caller in order, the store after the turn, and the resolved
session id. -/
structure TurnResult where
  fragments : List String
  store : Store
  sessionId : String
deriving DecidableEq, Repr

/-- The retrieval + generation backend of a turn, abstracted: what
`ConversationalRetrievalChain` does with the windowed memory view
(`load_memory_variables`) and the question — either a complete answer text
or an exception.  Being a legacy `Chain`, its `astream` yields the whole
result as one chunk after `ainvoke` finishes (memory already saved), so the
backend interaction of a turn is atomic. -/
abbrev QaChain := List Msg → String → Except Unit String

/-- `ChatbotService.stream_response` (`domain/chatbot.py`): resolve the
session id; if the session has not been greeted, detect a name, emit the one
greeting fragment and mark the session greeted (no backend involved);
otherwise run the retrieval chain on the windowed memory and the question,
save the completed pair to memory and yield the answer chunk when its
`answer` field is non-empty.  Any exception is caught and the fixed apology
is yielded instead, with the state changes made before the exception kept. -/
def stream_response (qaChain : QaChain) (freshId : String) (σ : Store)
    (user_input : String) (session_id : Option String) : TurnResult :=
  let sid := get_or_create_session_id session_id freshId
  if has_greeted σ sid = false then
    let name := detect_name_from_input user_input
    let greeting :=
      dictGet GREETING_MESSAGES "welcome_generic" "¡Hola! ¿En qué puedo ayudarte hoy?"
    let greeting :=
      match name with
      | some n => "¡Hola " ++ n ++ "! ¿En qué puedo ayudarte hoy?"
      | none => greeting
    { fragments := [greeting], store := mark_as_greeted σ sid, sessionId := sid }
  else
    let p := get_or_create_memory σ sid
    match qaChain (windowMessages p.1) user_input with
    | Except.ok answer =>
        let σ₂ := save_context p.2 sid user_input answer
        if answer = "" then
          { fragments := [], store := σ₂, sessionId := sid }
        else
          { fragments := [answer], store := σ₂, sessionId := sid }
    | Except.error _ =>
        { fragments := [ERROR_MSG], store := p.2, sessionId := sid }

/-- The fixed fallback returned by `ChatbotService.generate_summary` when the
summary generation raises. -/
def SUMMARY_FALLBACK : String :=
  "No se pudo generar el resumen. Por favor, inténtalo de nuevo más tarde."

/-- The history serialisation inside `generate_summary`:
`"\n".join(f"{msg['role'].capitalize()}: {msg['content']}" ...)`. -/
def format_history (chat_history : List RoleMsg) : String :=
  String.intercalate "\n"
    (chat_history.map (fun m => pyCapitalize m.role ++ ": " ++ m.content))

/-- The `SUMMARY_PROMPT_TEMPLATE` of `domain/prompts.py` up to its
`chat_history` placeholder. -/
def SUMMARY_PROMPT_HEAD : String :=
  "\nEres un asistente terapéutico que ayuda a los usuarios a reflexionar sobre sus conversaciones. \nTu tarea es generar un resumen claro y útil de la conversación, siguiendo este formato:\n\n🔹 **Temas Principales**:\n- [Lista de 2-3 temas clave discutidos]\n\n💡 **Consejos Clave**:\n- [2-3 consejos prácticos basados en la conversación]\n\n✨ **Palabras Motivacionales**:\n- [1-2 frases inspiradoras o de apoyo]\n\nInstrucciones:\n1. Sé conciso pero significativo.\n2. Usa un tono cálido y empático.\n3. Incluye solo información relevante.\n\nHistorial de la conversación:\n"

/-- Rendering of `SUMMARY_PROMPT_TEMPLATE` by `PromptTemplate`: the template
with the serialised history substituted for the placeholder. -/
def summaryPrompt (formatted_history : String) : String :=
  SUMMARY_PROMPT_HEAD ++ formatted_history ++ "\n"

/-- The non-streaming model backend `LLMChain.run`, abstracted: prompt in,
text out or an exception. -/
abbrev Llm := String → Except Unit String

/-- `ChatbotService.generate_summary` (`domain/chatbot.py`): serialise the
history, run the summary chain and return the stripped text; on any
exception return the fixed fallback string (the function always returns
text, it never raises to its caller). -/
def generate_summary (llm : Llm) (chat_history : List RoleMsg) : String :=
  match llm (summaryPrompt (format_history chat_history)) with
  | Except.ok summary => pyStrip summary
  | Except.error _ => SUMMARY_FALLBACK

/-- Error outcomes of the `/summary` endpoint relevant to the engine:
404 when the session has no history, 500 when the mail send fails. -/
inductive SummaryError where
  | notFound
  | mailFail
deriving DecidableEq, Repr

/-- `create_summary` (`services/main.py`): fetch the session history, answer
404 (`notFound`) when it is `None` or empty (Python `if not history:`),
otherwise generate the summary and send it by mail, failing with 500
(`mailFail`) when the mail transport reports failure. -/
def create_summary (llm : Llm) (mail : String → Bool) (σ : Store)
    (sid : String) : Except SummaryError String :=
  match get_history σ sid with
  | none => Except.error SummaryError.notFound
  | some history =>
      if history.isEmpty then Except.error SummaryError.notFound
      else
        let summary := generate_summary llm history
        if mail summary then Except.ok "Resumen enviado exitosamente"
        else Except.error SummaryError.mailFail

/-- A chain whose model backend always answers with the same text. -/
def constChain (answer : String) : QaChain := fun _ _ => Except.ok answer

/-- A chain whose retrieval or generation always raises. -/
def failChain : QaChain := fun _ _ => Except.error ()

/-- One turn of session `"s"` against a backend that always answers
`"r"`. -/
def demoTurn (σ : Store) (input : String) : Store :=
  (stream_response (constChain "r") "fresh" σ input (some "s")).store

/-- The store after the greeting turn and five completed
retrieval+generation turns of session `"s"`. -/
def sixTurnStore : Store :=
  demoTurn (demoTurn (demoTurn (demoTurn (demoTurn
    (demoTurn [] "hola") "m1") "m2") "m3") "m4") "m5"

theorem findSession_setSession_self (σ : Store) (sid : String) (s : Session) :
    findSession (setSession σ sid s) sid = some s := by
  induction σ with
  | nil => simp [setSession, findSession]
  | cons kv rest ih =>
      obtain ⟨k, v⟩ := kv
      by_cases h : k = sid
      · simp [setSession, findSession, h]
      · simp [setSession, findSession, h, ih]

theorem findSession_setSession_ne (σ : Store) (sid j : String) (s : Session)
    (h : j ≠ sid) : findSession (setSession σ sid s) j = findSession σ j := by
  induction σ with
  | nil => simp [setSession, findSession, Ne.symm h]
  | cons kv rest ih =>
      obtain ⟨k, v⟩ := kv
      by_cases hk : k = sid
      · subst hk
        simp [setSession, findSession, Ne.symm h]
      · simp only [setSession, if_neg hk]
        by_cases hj : k = j
        · subst hj
          simp [findSession]
        · simp [findSession, hj, ih]

theorem findSession_eraseSession_self (σ : Store) (sid : String) :
    findSession (eraseSession σ sid) sid = none := by
  induction σ with
  | nil => simp [eraseSession, findSession]
  | cons kv rest ih =>
      obtain ⟨k, v⟩ := kv
      by_cases h : k = sid
      · simp [eraseSession, h, ih]
      · simp [eraseSession, findSession, h, ih]

theorem setSession_setSession (σ : Store) (sid : String) (s t : Session) :
    setSession (setSession σ sid s) sid t = setSession σ sid t := by
  induction σ with
  | nil => simp [setSession]
  | cons kv rest ih =>
      obtain ⟨k, v⟩ := kv
      by_cases h : k = sid
      · simp [setSession, h]
      · simp [setSession, h, ih]

theorem detectGo_none_iff (ts : List String) :
    detectGo ts = none ↔
      ∀ i, i + 1 < ts.length → pyLower (ts.getD i "") ∉ palabras_clave := by
  induction ts with
  | nil =>
      simp [detectGo]
  | cons a tl ih =>
      cases tl with
      | nil =>
          simp only [detectGo, List.length_cons, List.length_nil]
          constructor
          · intro _ i hi
            omega
          · intro _
            trivial
      | cons b rest =>
          by_cases hkw : pyLower a ∈ palabras_clave
          · simp only [detectGo, if_pos hkw]
            constructor
            · intro h
              exact absurd h (by simp)
            · intro h
              have h0 := h 0 (by simp)
              simp [List.getD] at h0
              exact absurd hkw h0
          · simp only [detectGo, if_neg hkw]
            rw [ih]
            constructor
            · intro h i hi
              cases i with
              | zero =>
                  simpa [List.getD] using hkw
              | succ j =>
                  have hj : j + 1 < (b :: rest).length := by
                    simp only [List.length_cons] at hi ⊢
                    omega
                  simpa [List.getD] using h j hj
            · intro h i hi
              have hi' : (i + 1) + 1 < (a :: b :: rest).length := by
                simp only [List.length_cons] at hi ⊢
                omega
              simpa [List.getD] using h (i + 1) hi'

theorem detectGo_some (ts : List String) (x : String)
    (h : detectGo ts = some x) :
    ∃ i, i + 1 < ts.length ∧ pyLower (ts.getD i "") ∈ palabras_clave ∧
      x = pyCapitalize (ts.getD (i + 1) "") := by
  induction ts with
  | nil => exact absurd h (by simp [detectGo])
  | cons a tl ih =>
      cases tl with
      | nil => exact absurd h (by simp [detectGo])
      | cons b rest =>
          by_cases hkw : pyLower a ∈ palabras_clave
          · refine ⟨0, by simp, by simpa [List.getD] using hkw, ?_⟩
            simp only [detectGo, if_pos hkw, Option.some.injEq] at h
            simpa [List.getD] using h.symm
          · simp only [detectGo, if_neg hkw] at h
            obtain ⟨j, hj, hmem, hx⟩ := ih h
            refine ⟨j + 1, ?_, ?_, ?_⟩
            · simp only [List.length_cons] at hj ⊢
              omega
            · simpa [List.getD] using hmem
            · simpa [List.getD] using hx

/-- C4: `detect_name_from_input` scans the whitespace-delimited tokens; it
returns `none` exactly when no token with a successor lower-cases to a
keyword (hence also when the only keyword is the final token), and any
returned name is the capitalized token immediately following a keyword
token. -/
theorem detect_name_spec (input : String) :
    (detect_name_from_input input = none ↔
      ∀ i, i + 1 < (pySplit input).length →
        pyLower ((pySplit input).getD i "") ∉ palabras_clave) ∧
    (∀ x, detect_name_from_input input = some x →
      ∃ i, i + 1 < (pySplit input).length ∧
        pyLower ((pySplit input).getD i "") ∈ palabras_clave ∧
        x = pyCapitalize ((pySplit input).getD (i + 1) "")) :=
  ⟨detectGo_none_iff (pySplit input),
   fun x h => detectGo_some (pySplit input) x h⟩

/-- Witness for C4 on the concrete input of spec scenario 1. -/
theorem detect_name_spec_witness :
    ∃ i, i + 1 < (pySplit "Hola, soy Marta").length ∧
      pyLower ((pySplit "Hola, soy Marta").getD i "") ∈ palabras_clave ∧
      "Marta" = pyCapitalize ((pySplit "Hola, soy Marta").getD (i + 1) "") :=
  (detect_name_spec "Hola, soy Marta").2 "Marta" (by decide)

/-- C7: after `clear_session`, `_get_or_create_session` on the same id
returns the default fresh session — identical to what a brand-new id gets —
and the rebuilt session observes as empty history, not greeted, no name. -/
theorem clear_then_create_fresh (σ : Store) (sid : String) :
    (get_or_create_session (clear_session σ sid) sid).1 = defaultSession ∧
    (get_or_create_session (clear_session σ sid) sid).1 =
      (get_or_create_session [] sid).1 ∧
    get_history (get_or_create_session (clear_session σ sid) sid).2 sid =
      some [] ∧
    has_greeted (get_or_create_session (clear_session σ sid) sid).2 sid =
      false ∧
    get_name (get_or_create_session (clear_session σ sid) sid).2 sid = none ∧
    has_name (get_or_create_session (clear_session σ sid) sid).2 sid =
      false := by
  have hfind : findSession (clear_session σ sid) sid = none :=
    findSession_eraseSession_self σ sid
  simp [get_or_create_session, hfind, get_history, has_greeted, get_name,
    has_name, findSession_setSession_self, defaultSession, findSession]

/-- C8 counterexample: the caller-provided empty-string id is not returned
unchanged — Python truthiness makes `get_or_create_session_id` discard it
and answer the freshly generated uuid instead. -/
theorem session_id_empty_cex :
    get_or_create_session_id (some "") "fresh-uuid" = "fresh-uuid" ∧
    get_or_create_session_id (some "") "fresh-uuid" ≠ "" := by
  decide

/-- C8 amended: a provided non-empty id is returned unchanged; when the id
is absent or the empty string, the freshly allocated id is returned. -/
theorem session_id_amended (s freshId : String) :
    (s ≠ "" → get_or_create_session_id (some s) freshId = s) ∧
    get_or_create_session_id (some "") freshId = freshId ∧
    get_or_create_session_id none freshId = freshId := by
  refine ⟨fun h => ?_, ?_, rfl⟩
  · simp [get_or_create_session_id, h]
  · simp [get_or_create_session_id]

/-- Witness for the amended C8. -/
theorem session_id_amended_witness :
    get_or_create_session_id (some "abc") "fresh-uuid" = "abc" :=
  (session_id_amended "abc" "fresh-uuid").1 (by decide)

/-- C9: the read-only accessors are pure reads (their translations take the
store and return only a value; on an unknown id they answer the absent/false
defaults without registering the id), while `mark_as_greeted` and
`save_name` on an unknown id first create the default fresh session and then
mutate only that binding, leaving every other session untouched. -/
theorem store_accessors_frame (σ : Store) (sid userName : String)
    (hnew : findSession σ sid = none) :
    get_name σ sid = none ∧
    has_name σ sid = false ∧
    has_greeted σ sid = false ∧
    get_history σ sid = none ∧
    mark_as_greeted σ sid =
      setSession σ sid { defaultSession with greeted := true } ∧
    save_name σ sid userName =
      setSession σ sid { defaultSession with name := some userName } ∧
    findSession (mark_as_greeted σ sid) sid =
      some { defaultSession with greeted := true } ∧
    findSession (save_name σ sid userName) sid =
      some { defaultSession with name := some userName } ∧
    (∀ j, j ≠ sid →
      findSession (mark_as_greeted σ sid) j = findSession σ j) ∧
    (∀ j, j ≠ sid →
      findSession (save_name σ sid userName) j = findSession σ j) := by
  refine ⟨?_, ?_, ?_, ?_, ?_, ?_, ?_, ?_, ?_, ?_⟩
  · simp [get_name, hnew]
  · simp [has_name, hnew]
  · simp [has_greeted, hnew]
  · simp [get_history, hnew]
  · simp [mark_as_greeted, get_or_create_session, hnew, setSession_setSession]
  · simp [save_name, get_or_create_session, hnew, setSession_setSession]
  · simp [mark_as_greeted, get_or_create_session, hnew, setSession_setSession,
      findSession_setSession_self]
  · simp [save_name, get_or_create_session, hnew, setSession_setSession,
      findSession_setSession_self]
  · intro j hj
    simp [mark_as_greeted, get_or_create_session, hnew, setSession_setSession,
      findSession_setSession_ne _ _ _ _ hj]
  · intro j hj
    simp [save_name, get_or_create_session, hnew, setSession_setSession,
      findSession_setSession_ne _ _ _ _ hj]

/-- Witness for C9 at the empty store. -/
theorem store_accessors_frame_witness : get_name ([] : Store) "a" = none :=
  (store_accessors_frame [] "a" "Bo" rfl).1

/-- C3: on a brand-new session the turn emits exactly one fragment — the
greeting templated with the detected name, or the generic greeting — flips
the greeted flag from false to true, leaves the history empty and the name
absent, and never consults the retrieval/model chain (the result is the same
for any two chains). -/
theorem first_turn_greeting (qaChain qaChain' : QaChain) (freshId : String)
    (σ : Store) (user_input sid : String) (hne : sid ≠ "")
    (hnew : findSession σ sid = none) :
    (stream_response qaChain freshId σ user_input (some sid)).fragments =
      [(match detect_name_from_input user_input with
        | some n => "¡Hola " ++ n ++ "! ¿En qué puedo ayudarte hoy?"
        | none => "¡Hola! ¿En qué puedo ayudarte hoy?")] ∧
    has_greeted σ sid = false ∧
    (stream_response qaChain freshId σ user_input (some sid)).sessionId =
      sid ∧
    has_greeted
      (stream_response qaChain freshId σ user_input (some sid)).store sid =
      true ∧
    get_history
      (stream_response qaChain freshId σ user_input (some sid)).store sid =
      some [] ∧
    get_name
      (stream_response qaChain freshId σ user_input (some sid)).store sid =
      none ∧
    stream_response qaChain freshId σ user_input (some sid) =
      stream_response qaChain' freshId σ user_input (some sid) := by
  have hsid : get_or_create_session_id (some sid) freshId = sid := by
    simp [get_or_create_session_id, hne]
  have hg : has_greeted σ sid = false := by simp [has_greeted, hnew]
  have hmark : mark_as_greeted σ sid =
      setSession σ sid { defaultSession with greeted := true } := by
    simp [mark_as_greeted, get_or_create_session, hnew, setSession_setSession]
  have hdict : dictGet GREETING_MESSAGES "welcome_generic"
      "¡Hola! ¿En qué puedo ayudarte hoy?" =
      "¡Hola! ¿En qué puedo ayudarte hoy?" := by decide
  refine ⟨?_, hg, ?_, ?_, ?_, ?_, ?_⟩
  · cases hdn : detect_name_from_input user_input with
    | some n => simp [stream_response, hsid, hg, hdn, hdict]
    | none => simp [stream_response, hsid, hg, hdn, hdict]
  · simp [stream_response, hsid, hg]
  · simp [stream_response, hsid, hg, hnew, hmark, has_greeted,
      findSession_setSession_self]
  · simp [stream_response, hsid, hg, hmark, get_history,
      findSession_setSession_self, defaultSession]
  · simp [stream_response, hsid, hg, hmark, get_name,
      findSession_setSession_self, defaultSession]
  · simp [stream_response, hsid, hg]

/-- Witness for C3 on spec scenario 1: new session, input
"Hola, soy Marta". -/
theorem first_turn_greeting_witness :
    (stream_response failChain "f" [] "Hola, soy Marta" (some "s")).fragments =
      ["¡Hola Marta! ¿En qué puedo ayudarte hoy?"] := by
  have h := (first_turn_greeting failChain (constChain "x") "f" []
    "Hola, soy Marta" "s" (by decide) rfl).1
  rw [h]
  decide

/-- C2: when retrieval or generation raises on an active (greeted) session,
the turn's entire output is the single fixed apology fragment and the store
— hence the session's history — is exactly what it was before the turn. -/
theorem failed_turn_single_apology (qaChain : QaChain) (freshId : String)
    (σ : Store) (sid user_input : String) (s : Session) (hne : sid ≠ "")
    (hs : findSession σ sid = some s) (hg : s.greeted = true)
    (hfail : qaChain (windowMessages s.messages) user_input =
      Except.error ()) :
    stream_response qaChain freshId σ user_input (some sid) =
      { fragments := [ERROR_MSG], store := σ, sessionId := sid } ∧
    get_history
      (stream_response qaChain freshId σ user_input (some sid)).store sid =
      get_history σ sid := by
  have hsid : get_or_create_session_id (some sid) freshId = sid := by
    simp [get_or_create_session_id, hne]
  have hgr : has_greeted σ sid = true := by simp [has_greeted, hs, hg]
  have hmain : stream_response qaChain freshId σ user_input (some sid) =
      { fragments := [ERROR_MSG], store := σ, sessionId := sid } := by
    simp [stream_response, hsid, hgr, get_or_create_memory,
      get_or_create_session, hs, hfail]
  exact ⟨hmain, by rw [hmain]⟩

/-- Witness for C2 on spec scenario 3: the chain raises on an active
session. -/
theorem failed_turn_single_apology_witness :
    stream_response failChain "f"
        [("s", { messages := [], name := none, greeted := true })] "hola"
        (some "s") =
      { fragments := [ERROR_MSG],
        store := [("s", { messages := [], name := none, greeted := true })],
        sessionId := "s" } :=
  (failed_turn_single_apology failChain "f"
    [("s", { messages := [], name := none, greeted := true })] "s" "hola"
    { messages := [], name := none, greeted := true }
    (by decide) rfl rfl rfl).1

/-- C10: every fragment yielded by `stream_response` is non-empty — chunks
whose `answer` field is empty are filtered out, and the greeting and apology
texts are themselves non-empty. -/
theorem fragments_nonempty (qaChain : QaChain) (freshId : String) (σ : Store)
    (user_input : String) (session_id : Option String) (f : String)
    (hf : f ∈ (stream_response qaChain freshId σ user_input
      session_id).fragments) :
    f ≠ "" := by
  simp only [stream_response] at hf
  split at hf
  · cases hdn : detect_name_from_input user_input with
    | some n =>
        rw [hdn] at hf
        simp only [List.mem_singleton] at hf
        subst hf
        intro hcontra
        have hlen := congrArg String.length hcontra
        rw [String.length_append, String.length_append] at hlen
        have h1 : 0 < ("¡Hola " : String).length := by decide
        have h2 : ("" : String).length = 0 := by decide
        omega
    | none =>
        rw [hdn] at hf
        simp only [List.mem_singleton] at hf
        subst hf
        decide
  · split at hf
    · split at hf
      · simp at hf
      · simp only [List.mem_singleton] at hf
        subst hf
        assumption
    · simp only [List.mem_singleton] at hf
      subst hf
      decide

/-- Witness for C10: the apology fragment of a failed turn is non-empty. -/
theorem fragments_nonempty_witness : ERROR_MSG ≠ "" :=
  fragments_nonempty failChain "f"
    [("s", { messages := [], name := none, greeted := true })] "hola"
    (some "s") ERROR_MSG (by decide)

/-- C5: the summary endpoint answers 404 (`notFound`) exactly when the
session's history is `None` (the session was never created — the first
conjunct ties `None` to absence from the store) or the retained history is
empty; with a non-empty history it never answers `notFound` and instead
generates the summary from that retained history and hands it to the mail
transport. -/
theorem create_summary_not_found_iff (llm : Llm) (mail : String → Bool)
    (σ : Store) (sid : String) :
    (get_history σ sid = none ↔ findSession σ sid = none) ∧
    (create_summary llm mail σ sid = Except.error SummaryError.notFound ↔
      get_history σ sid = none ∨ get_history σ sid = some []) ∧
    (∀ h, get_history σ sid = some h → h ≠ [] →
      create_summary llm mail σ sid =
        if mail (generate_summary llm h) then
          Except.ok "Resumen enviado exitosamente"
        else Except.error SummaryError.mailFail) := by
  refine ⟨?_, ?_, ?_⟩
  · unfold get_history
    cases findSession σ sid <;> simp
  · unfold create_summary
    cases hh : get_history σ sid with
    | none => simp
    | some hist =>
        by_cases he : hist = []
        · subst he
          simp
        · have hne : hist.isEmpty = false := by
            simpa [List.isEmpty_iff] using he
          simp only [hne, Bool.false_eq_true, if_false, Option.some.injEq]
          constructor
          · intro hcon
            split at hcon <;> simp_all
          · intro hcon
            rcases hcon with h1 | h1
            · exact absurd h1 (by simp)
            · exact absurd h1 he
  · intro h hh hne
    unfold create_summary
    rw [hh]
    have hne' : h.isEmpty = false := by simpa [List.isEmpty_iff] using hne
    simp [hne']

/-- Witness for C5: a session whose retained history holds one completed
pair; the summary is generated and mailed successfully. -/
theorem create_summary_not_found_iff_witness :
    create_summary (fun _ => Except.ok "res") (fun _ => true)
        [("s", { messages := [{ type := Role.human, content := "hola" },
                              { type := Role.ai, content := "resp" }],
                 name := none, greeted := true })] "s" =
      Except.ok "Resumen enviado exitosamente" := by
  have h := (create_summary_not_found_iff (fun _ => Except.ok "res")
    (fun _ => true)
    [("s", { messages := [{ type := Role.human, content := "hola" },
                          { type := Role.ai, content := "resp" }],
             name := none, greeted := true })] "s").2.2
    [{ role := "user", content := "hola" },
     { role := "assistant", content := "resp" }] (by decide) (by decide)
  rw [h]
  simp

/-- C6: `generate_summary` never raises — when the summary chain fails it
returns the fixed fallback string, and when the chain succeeds it returns
the backend's text with surrounding whitespace stripped. -/
theorem generate_summary_total (llm : Llm) (chat_history : List RoleMsg) :
    (∀ e, llm (summaryPrompt (format_history chat_history)) =
        Except.error e →
      generate_summary llm chat_history = SUMMARY_FALLBACK) ∧
    (∀ s, llm (summaryPrompt (format_history chat_history)) = Except.ok s →
      generate_summary llm chat_history = pyStrip s) := by
  constructor
  · intro e h
    simp [generate_summary, h]
  · intro s h
    simp [generate_summary, h]

/-- Witness for C6: a failing backend yields the fallback; a succeeding
backend's text is returned trimmed. -/
theorem generate_summary_total_witness :
    generate_summary (fun _ => Except.error ()) [] = SUMMARY_FALLBACK ∧
    generate_summary (fun _ => Except.ok " resumen ") [] = "resumen" := by
  constructor
  · exact (generate_summary_total (fun _ => Except.error ()) []).1 () rfl
  · have h := (generate_summary_total (fun _ => Except.ok " resumen ") []).2
      " resumen " rfl
    rw [h]
    decide

/-- C1 counterexample: after five completed turns the history returned by
`get_history` holds 10 messages, exceeding the claimed `2*W = 8` bound.
`ConversationBufferWindowMemory` never prunes `chat_memory.messages` — the
window is applied only on read — and `get_history` reads the unpruned
list. -/
theorem get_history_exceeds_window_cex :
    (get_history sixTurnStore "s").map List.length = some 10 ∧
    ¬ (10 ≤ 2 * memoryWindowK) := by decide

/-- C1 amended: the memory view handed to prompt composition
(`buffer_as_messages`) is bounded by `2*W` messages and is a suffix of the
stored message list (oldest messages evicted first, order preserved within
the window), while `get_history` returns the full stored history without
bound, each completed turn appending its user and assistant messages at the
end (insertion order preserved). -/
theorem memory_window_bound (msgs : List Msg) (σ : Store)
    (sid question answer : String) (s : Session)
    (hs : findSession σ sid = some s) :
    (windowMessages msgs).length ≤ 2 * memoryWindowK ∧
    windowMessages msgs <:+ msgs ∧
    get_history (save_context σ sid question answer) sid =
      (get_history σ sid).map (fun l =>
        l ++ [{ role := "user", content := question },
              { role := "assistant", content := answer }]) := by
  refine ⟨?_, ?_, ?_⟩
  · simp only [windowMessages, memoryWindowK, if_pos (by norm_num : (0:Nat) < 4),
      List.length_drop]
    omega
  · simp only [windowMessages, memoryWindowK, if_pos (by norm_num : (0:Nat) < 4)]
    exact List.drop_suffix _ _
  · simp [save_context, hs, get_history, findSession_setSession_self]

/-- Witness for the amended C1: saving one completed pair appends the two
formatted messages to the returned history. -/
theorem memory_window_bound_witness :
    get_history (save_context
        [("s", { messages := [], name := none, greeted := true })] "s" "q" "a")
        "s" =
      some [{ role := "user", content := "q" },
            { role := "assistant", content := "a" }] := by
  have h := (memory_window_bound []
    [("s", { messages := [], name := none, greeted := true })] "s" "q" "a"
    { messages := [], name := none, greeted := true } rfl).2.2
  rw [h]
  decide
